import Mathlib

/-!
Shallow embedding of the `paint-calculators` library (coverage engine,
multi-coat system, dew point, ROI, WFT, spreading rate) over exact
arithmetic (`ℚ` for the algebraic calculators, `ℝ` for the dew-point
calculator, which uses the natural logarithm), together with theorems
checking the specification's claims against the embedded code.

JavaScript `Math.round x` is `⌊x + 1/2⌋` on the inputs arising here, which
is Mathlib's `round`; `Math.ceil` is `Int.ceil`.  The source rounds a value
`x` to one decimal as `Math.round(x * 10) / 10` (resp. `Math.ceil(x * 10) / 10`),
embedded below as `round1` (resp. `ceil1`).
-/

namespace PaintCalc

/-- JS `Math.round(x * 10) / 10`: round to nearest at one decimal. -/
def round1 (x : ℚ) : ℚ := (round (x * 10) : ℤ) / 10

/-- JS `Math.ceil(x * 10) / 10`: round up (ceiling) at one decimal. -/
def ceil1 (x : ℚ) : ℚ := (⌈x * 10⌉ : ℤ) / 10

/-- JS `Math.round(x * 100) / 100`: round to nearest at two decimals. -/
def round2 (x : ℚ) : ℚ := (round (x * 100) : ℤ) / 100

/-- JS `Math.round x`: round to the nearest whole unit. -/
def round0 (x : ℚ) : ℚ := (round x : ℤ)

/-- `CONSTANTS.COVERAGE_CONSTANT` (sq ft per gallon at 1 mil DFT at 100% solids). -/
def COVERAGE_CONSTANT : ℚ := 1604

/-- Input of `calculatePaintCoverage` (`CoverageInput` in `types.ts`); the
source destructuring applies defaults `coats = 1`, `transferEfficiency = 65`,
`pricePerGallon = 0` for absent fields, mirrored as default field values. -/
structure CoverageInput where
  surfaceArea : ℚ
  coats : ℚ := 1
  volumeSolids : ℚ
  targetDFT : ℚ
  transferEfficiency : ℚ := 65
  pricePerGallon : ℚ := 0
deriving DecidableEq, Repr

/-- Result of `calculatePaintCoverage` (`CoverageResult` in `types.ts`). -/
structure CoverageResult where
  theoreticalCoverage : ℚ
  practicalCoverage : ℚ
  gallonsPerCoat : ℚ
  totalGallons : ℚ
  totalWithWaste : ℚ
  wasteFactorGallons : ℚ
  fiveGallonBuckets : ℤ
  oneGallonCans : ℤ
  estimatedCost : ℚ
  coveragePerGallon : ℚ
deriving DecidableEq, Repr, Inhabited

/-- Embedding of `calculatePaintCoverage` (coverage.ts lines 93-132).
Validation guards throw (`Except.error`) exactly as in the source; the
arithmetic mirrors the source line by line. -/
def calculatePaintCoverage (input : CoverageInput) : Except String CoverageResult :=
  if input.surfaceArea ≤ 0 then
    .error "Surface area must be greater than 0"
  else if input.volumeSolids ≤ 0 ∨ 100 < input.volumeSolids then
    .error "Volume solids must be between 0 and 100"
  else if input.targetDFT ≤ 0 then
    .error "Target DFT must be greater than 0"
  else
    let theoreticalCoverage := COVERAGE_CONSTANT * input.volumeSolids / 100 / input.targetDFT
    let practicalCoverage := theoreticalCoverage * (input.transferEfficiency / 100)
    let gallonsPerCoat := input.surfaceArea / practicalCoverage
    let totalGallons := gallonsPerCoat * input.coats
    let wasteFactorGallons := totalGallons * 0.1
    let totalWithWaste := totalGallons + wasteFactorGallons
    let fiveGallonBuckets := ⌈totalWithWaste / 5⌉
    let oneGallonCans := ⌈totalWithWaste⌉
    let estimatedCost := if 0 < input.pricePerGallon then totalWithWaste * input.pricePerGallon else 0
    .ok {
      theoreticalCoverage := round1 theoreticalCoverage
      practicalCoverage := round1 practicalCoverage
      gallonsPerCoat := ceil1 gallonsPerCoat
      totalGallons := ceil1 totalGallons
      totalWithWaste := ceil1 totalWithWaste
      wasteFactorGallons := ceil1 wasteFactorGallons
      fiveGallonBuckets := fiveGallonBuckets
      oneGallonCans := oneGallonCans
      estimatedCost := round2 estimatedCost
      coveragePerGallon := round0 practicalCoverage }

/-- Spec formula (§4.1 step 2): theoreticalCoverage = (K × volumeSolids / 100) / targetDFT. -/
def specTheoretical (volumeSolids targetDFT : ℚ) : ℚ :=
  1604 * volumeSolids / 100 / targetDFT

/-- Spec formula (§4.1 step 3): practicalCoverage = theoretical × (transferEfficiency / 100). -/
def specPractical (volumeSolids targetDFT transferEfficiency : ℚ) : ℚ :=
  specTheoretical volumeSolids targetDFT * (transferEfficiency / 100)

/-- Spec formula (§4.1 step 4): gallonsPerCoat = area / practicalCoverage. -/
def specGallonsPerCoat (area volumeSolids targetDFT transferEfficiency : ℚ) : ℚ :=
  area / specPractical volumeSolids targetDFT transferEfficiency

/-- Spec formula (§4.1 step 4): totalGallons = gallonsPerCoat × coats. -/
def specTotalGallons (area coats volumeSolids targetDFT transferEfficiency : ℚ) : ℚ :=
  specGallonsPerCoat area volumeSolids targetDFT transferEfficiency * coats

/-- Shared helper: on a valid input the coverage engine succeeds, and every
field of its result is the corresponding spec formula with the source's
per-field rounding applied. -/
theorem calculatePaintCoverage_ok (i : CoverageInput)
    (ha : 0 < i.surfaceArea) (hs0 : 0 < i.volumeSolids) (hs1 : i.volumeSolids ≤ 100)
    (hd : 0 < i.targetDFT) :
    calculatePaintCoverage i = .ok {
      theoreticalCoverage := round1 (specTheoretical i.volumeSolids i.targetDFT)
      practicalCoverage := round1 (specPractical i.volumeSolids i.targetDFT i.transferEfficiency)
      gallonsPerCoat := ceil1 (specGallonsPerCoat i.surfaceArea i.volumeSolids i.targetDFT i.transferEfficiency)
      totalGallons := ceil1 (specTotalGallons i.surfaceArea i.coats i.volumeSolids i.targetDFT i.transferEfficiency)
      totalWithWaste := ceil1 (specTotalGallons i.surfaceArea i.coats i.volumeSolids i.targetDFT i.transferEfficiency
        + specTotalGallons i.surfaceArea i.coats i.volumeSolids i.targetDFT i.transferEfficiency * 0.1)
      wasteFactorGallons := ceil1 (specTotalGallons i.surfaceArea i.coats i.volumeSolids i.targetDFT i.transferEfficiency * 0.1)
      fiveGallonBuckets := ⌈(specTotalGallons i.surfaceArea i.coats i.volumeSolids i.targetDFT i.transferEfficiency
        + specTotalGallons i.surfaceArea i.coats i.volumeSolids i.targetDFT i.transferEfficiency * 0.1) / 5⌉
      oneGallonCans := ⌈specTotalGallons i.surfaceArea i.coats i.volumeSolids i.targetDFT i.transferEfficiency
        + specTotalGallons i.surfaceArea i.coats i.volumeSolids i.targetDFT i.transferEfficiency * 0.1⌉
      estimatedCost := round2 (if 0 < i.pricePerGallon then
        (specTotalGallons i.surfaceArea i.coats i.volumeSolids i.targetDFT i.transferEfficiency
          + specTotalGallons i.surfaceArea i.coats i.volumeSolids i.targetDFT i.transferEfficiency * 0.1) * i.pricePerGallon
        else 0)
      coveragePerGallon := round0 (specPractical i.volumeSolids i.targetDFT i.transferEfficiency) } := by
  rw [calculatePaintCoverage, if_neg (not_le.mpr ha),
    if_neg (by push_neg; exact ⟨hs0, hs1⟩ : ¬(i.volumeSolids ≤ 0 ∨ 100 < i.volumeSolids)),
    if_neg (not_le.mpr hd)]
  rfl

/-- C1: on every valid input (area > 0, 0 < solids ≤ 100, DFT > 0) the coverage
engine succeeds and computes, before per-field rounding, theoreticalCoverage =
(1604·volumeSolids/100)/targetDFT, practicalCoverage = theoretical·(TE/100),
gallonsPerCoat = area/practical, totalGallons = gallonsPerCoat·coats,
wasteFactorGallons = totalGallons·0.10, totalWithWaste = totalGallons + waste =
totalGallons·1.10 (up to the per-field rounding of the returned values), and
estimatedCost = totalWithWaste·pricePerGallon when pricePerGallon > 0, else 0. -/
theorem coverage_formulas (i : CoverageInput)
    (ha : 0 < i.surfaceArea) (hs0 : 0 < i.volumeSolids) (hs1 : i.volumeSolids ≤ 100)
    (hd : 0 < i.targetDFT) :
    ∃ r, calculatePaintCoverage i = .ok r ∧
      r.theoreticalCoverage = round1 (1604 * i.volumeSolids / 100 / i.targetDFT) ∧
      r.practicalCoverage = round1 (specTheoretical i.volumeSolids i.targetDFT * (i.transferEfficiency / 100)) ∧
      r.gallonsPerCoat = ceil1 (i.surfaceArea / specPractical i.volumeSolids i.targetDFT i.transferEfficiency) ∧
      r.totalGallons = ceil1 (specGallonsPerCoat i.surfaceArea i.volumeSolids i.targetDFT i.transferEfficiency * i.coats) ∧
      r.wasteFactorGallons = ceil1 (specTotalGallons i.surfaceArea i.coats i.volumeSolids i.targetDFT i.transferEfficiency * 0.1) ∧
      r.totalWithWaste = ceil1 (specTotalGallons i.surfaceArea i.coats i.volumeSolids i.targetDFT i.transferEfficiency * 1.1) ∧
      r.estimatedCost = (if 0 < i.pricePerGallon then
        round2 (specTotalGallons i.surfaceArea i.coats i.volumeSolids i.targetDFT i.transferEfficiency * 1.1 * i.pricePerGallon)
        else 0) := by
  rw [calculatePaintCoverage_ok i ha hs0 hs1 hd]
  refine ⟨_, rfl, rfl, rfl, rfl, rfl, rfl, ?_, ?_⟩
  · exact congrArg ceil1 (by ring)
  · by_cases hp : 0 < i.pricePerGallon
    · rw [if_pos hp, if_pos hp]
      exact congrArg round2 (by ring)
    · rw [if_neg hp, if_neg hp, round2]
      norm_num

/-- Witness for C1 at the spec's worked example
(area 1000, 2 coats, 65% solids, 5 mil DFT, TE 65, price 45). -/
theorem coverage_formulas_witness :
    ∃ r, calculatePaintCoverage ⟨1000, 2, 65, 5, 65, 45⟩ = .ok r ∧
      r.theoreticalCoverage = round1 (1604 * 65 / 100 / 5) ∧
      r.practicalCoverage = round1 (specTheoretical 65 5 * (65 / 100)) ∧
      r.gallonsPerCoat = ceil1 (1000 / specPractical 65 5 65) ∧
      r.totalGallons = ceil1 (specGallonsPerCoat 1000 65 5 65 * 2) ∧
      r.wasteFactorGallons = ceil1 (specTotalGallons 1000 2 65 5 65 * 0.1) ∧
      r.totalWithWaste = ceil1 (specTotalGallons 1000 2 65 5 65 * 1.1) ∧
      r.estimatedCost = (if (0:ℚ) < 45 then
        round2 (specTotalGallons 1000 2 65 5 65 * 1.1 * 45) else 0) :=
  coverage_formulas ⟨1000, 2, 65, 5, 65, 45⟩ (by norm_num) (by norm_num) (by norm_num) (by norm_num)

/-- `round1` lands on a multiple of one tenth. -/
theorem round1_exists_int (x : ℚ) : ∃ k : ℤ, round1 x = k / 10 := ⟨round (x * 10), rfl⟩

/-- `ceil1` lands on a multiple of one tenth. -/
theorem ceil1_exists_int (x : ℚ) : ∃ k : ℤ, ceil1 x = k / 10 := ⟨⌈x * 10⌉, rfl⟩

/-- `round2` lands on a multiple of one hundredth. -/
theorem round2_exists_int (x : ℚ) : ∃ k : ℤ, round2 x = k / 100 := ⟨round (x * 100), rfl⟩

/-- `round0` lands on an integer. -/
theorem round0_exists_int (x : ℚ) : ∃ k : ℤ, round0 x = k := ⟨round x, rfl⟩

/-- Rounding to nearest at one decimal moves the value by at most 1/20. -/
theorem abs_round1_sub_le (x : ℚ) : |round1 x - x| ≤ 1 / 20 := by
  have h : |x * 10 - (round (x * 10) : ℤ)| ≤ 1 / 2 := abs_sub_round (x * 10)
  have e : round1 x - x = -(x * 10 - (round (x * 10) : ℤ)) / 10 := by rw [round1]; ring
  rw [e, abs_div, abs_neg, show |(10 : ℚ)| = 10 by norm_num]
  linarith

/-- Rounding to nearest at two decimals moves the value by at most 1/200. -/
theorem abs_round2_sub_le (x : ℚ) : |round2 x - x| ≤ 1 / 200 := by
  have h : |x * 100 - (round (x * 100) : ℤ)| ≤ 1 / 2 := abs_sub_round (x * 100)
  have e : round2 x - x = -(x * 100 - (round (x * 100) : ℤ)) / 100 := by rw [round2]; ring
  rw [e, abs_div, abs_neg, show |(100 : ℚ)| = 100 by norm_num]
  linarith

/-- Rounding to the nearest whole unit moves the value by at most 1/2. -/
theorem abs_round0_sub_le (x : ℚ) : |round0 x - x| ≤ 1 / 2 := by
  have h : |x - (round x : ℤ)| ≤ 1 / 2 := abs_sub_round x
  rw [round0, abs_sub_comm]
  exact h

/-- `ceil1` never under-shoots: it is an upper rounding. -/
theorem le_ceil1 (x : ℚ) : x ≤ ceil1 x := by
  rw [ceil1]
  have h := Int.le_ceil (x * 10)
  linarith

/-- `ceil1` is the least tenth-multiple above: it overshoots by less than 1/10. -/
theorem ceil1_sub_lt (x : ℚ) : ceil1 x - 1 / 10 < x := by
  rw [ceil1]
  have h := Int.ceil_lt_add_one (x * 10)
  linarith

/-- `ceil1` is monotone. -/
theorem ceil1_mono {x y : ℚ} (h : x ≤ y) : ceil1 x ≤ ceil1 y := by
  rw [ceil1, ceil1]
  have hc : ⌈x * 10⌉ ≤ ⌈y * 10⌉ := Int.ceil_le_ceil (by linarith)
  have hq : ((⌈x * 10⌉ : ℤ) : ℚ) ≤ ((⌈y * 10⌉ : ℤ) : ℚ) := by exact_mod_cast hc
  linarith

/-- `ceil1` of a positive value is positive. -/
theorem ceil1_pos {x : ℚ} (h : 0 < x) : 0 < ceil1 x := by
  have := le_ceil1 x
  linarith

/-- C4: `calculatePaintCoverage` fails with `InvalidInput` exactly when
area ≤ 0, volumeSolids ≤ 0, volumeSolids > 100, or targetDFT ≤ 0; the
boundary inputs area=0, solids=0, solids=101, DFT=0 each raise the error,
while solids=100 and DFT=0.0001 (other fields valid) succeed. -/
theorem coverage_error_iff :
    (∀ i : CoverageInput, (∃ e, calculatePaintCoverage i = .error e) ↔
      (i.surfaceArea ≤ 0 ∨ i.volumeSolids ≤ 0 ∨ 100 < i.volumeSolids ∨ i.targetDFT ≤ 0)) ∧
    calculatePaintCoverage ⟨0, 1, 50, 5, 65, 0⟩ = .error "Surface area must be greater than 0" ∧
    calculatePaintCoverage ⟨1000, 1, 0, 5, 65, 0⟩ = .error "Volume solids must be between 0 and 100" ∧
    calculatePaintCoverage ⟨1000, 1, 101, 5, 65, 0⟩ = .error "Volume solids must be between 0 and 100" ∧
    calculatePaintCoverage ⟨1000, 1, 50, 0, 65, 0⟩ = .error "Target DFT must be greater than 0" ∧
    (∃ r, calculatePaintCoverage ⟨1000, 1, 100, 5, 65, 0⟩ = .ok r) ∧
    (∃ r, calculatePaintCoverage ⟨1000, 1, 50, 1 / 10000, 65, 0⟩ = .ok r) := by
  refine ⟨?_, by rw [calculatePaintCoverage]; norm_num, by rw [calculatePaintCoverage]; norm_num,
    by rw [calculatePaintCoverage]; norm_num, by rw [calculatePaintCoverage]; norm_num,
    ⟨_, calculatePaintCoverage_ok ⟨1000, 1, 100, 5, 65, 0⟩
      (by norm_num) (by norm_num) (by norm_num) (by norm_num)⟩,
    ⟨_, calculatePaintCoverage_ok ⟨1000, 1, 50, 1 / 10000, 65, 0⟩
      (by norm_num) (by norm_num) (by norm_num) (by norm_num)⟩⟩
  intro i
  rw [calculatePaintCoverage]
  split_ifs with h1 h2 h3
  · exact iff_of_true ⟨_, rfl⟩ (Or.inl h1)
  · exact iff_of_true ⟨_, rfl⟩ (Or.inr (by tauto))
  · exact iff_of_true ⟨_, rfl⟩ (Or.inr (Or.inr (Or.inr h3)))
  · push_neg at h2
    constructor
    · rintro ⟨e, he⟩
      exact he.elim
    · rintro (h | h | h | h)
      · exact absurd h h1
      · exact absurd h (not_le.mpr h2.1)
      · exact absurd h (not_lt.mpr h2.2)
      · exact absurd h h3

/-- C5: on every valid input, the returned fields are the raw formula values
with per-field rounding: theoreticalCoverage and practicalCoverage land on a
tenth-multiple within 1/20 of the raw value (round-to-nearest at 1 decimal);
gallonsPerCoat, totalGallons, totalWithWaste and wasteFactorGallons land on
the least tenth-multiple ≥ the raw value (ceiling at 1 decimal);
estimatedCost lands on a hundredth-multiple within 1/200 of the raw cost
(round-to-nearest at 2 decimals); coveragePerGallon is an integer within 1/2
of the raw practical coverage. -/
theorem coverage_rounding (i : CoverageInput)
    (ha : 0 < i.surfaceArea) (hs0 : 0 < i.volumeSolids) (hs1 : i.volumeSolids ≤ 100)
    (hd : 0 < i.targetDFT) :
    ∃ r, calculatePaintCoverage i = .ok r ∧
      ((∃ k : ℤ, r.theoreticalCoverage = k / 10) ∧
        |r.theoreticalCoverage - specTheoretical i.volumeSolids i.targetDFT| ≤ 1 / 20) ∧
      ((∃ k : ℤ, r.practicalCoverage = k / 10) ∧
        |r.practicalCoverage - specPractical i.volumeSolids i.targetDFT i.transferEfficiency| ≤ 1 / 20) ∧
      ((∃ k : ℤ, r.gallonsPerCoat = k / 10) ∧
        specGallonsPerCoat i.surfaceArea i.volumeSolids i.targetDFT i.transferEfficiency ≤ r.gallonsPerCoat ∧
        r.gallonsPerCoat - 1 / 10 < specGallonsPerCoat i.surfaceArea i.volumeSolids i.targetDFT i.transferEfficiency) ∧
      ((∃ k : ℤ, r.totalGallons = k / 10) ∧
        specTotalGallons i.surfaceArea i.coats i.volumeSolids i.targetDFT i.transferEfficiency ≤ r.totalGallons ∧
        r.totalGallons - 1 / 10 < specTotalGallons i.surfaceArea i.coats i.volumeSolids i.targetDFT i.transferEfficiency) ∧
      ((∃ k : ℤ, r.totalWithWaste = k / 10) ∧
        specTotalGallons i.surfaceArea i.coats i.volumeSolids i.targetDFT i.transferEfficiency * 1.1 ≤ r.totalWithWaste ∧
        r.totalWithWaste - 1 / 10 < specTotalGallons i.surfaceArea i.coats i.volumeSolids i.targetDFT i.transferEfficiency * 1.1) ∧
      ((∃ k : ℤ, r.wasteFactorGallons = k / 10) ∧
        specTotalGallons i.surfaceArea i.coats i.volumeSolids i.targetDFT i.transferEfficiency * 0.1 ≤ r.wasteFactorGallons ∧
        r.wasteFactorGallons - 1 / 10 < specTotalGallons i.surfaceArea i.coats i.volumeSolids i.targetDFT i.transferEfficiency * 0.1) ∧
      ((∃ k : ℤ, r.estimatedCost = k / 100) ∧
        |r.estimatedCost - (if 0 < i.pricePerGallon then
          specTotalGallons i.surfaceArea i.coats i.volumeSolids i.targetDFT i.transferEfficiency * 1.1 * i.pricePerGallon
          else 0)| ≤ 1 / 200) ∧
      ((∃ k : ℤ, r.coveragePerGallon = k) ∧
        |r.coveragePerGallon - specPractical i.volumeSolids i.targetDFT i.transferEfficiency| ≤ 1 / 2) := by
  rw [calculatePaintCoverage_ok i ha hs0 hs1 hd]
  have e11 : specTotalGallons i.surfaceArea i.coats i.volumeSolids i.targetDFT i.transferEfficiency
      + specTotalGallons i.surfaceArea i.coats i.volumeSolids i.targetDFT i.transferEfficiency * 0.1
      = specTotalGallons i.surfaceArea i.coats i.volumeSolids i.targetDFT i.transferEfficiency * 1.1 := by ring
  have ecost : (if 0 < i.pricePerGallon then
      (specTotalGallons i.surfaceArea i.coats i.volumeSolids i.targetDFT i.transferEfficiency
        + specTotalGallons i.surfaceArea i.coats i.volumeSolids i.targetDFT i.transferEfficiency * 0.1) * i.pricePerGallon
      else 0)
      = (if 0 < i.pricePerGallon then
      specTotalGallons i.surfaceArea i.coats i.volumeSolids i.targetDFT i.transferEfficiency * 1.1 * i.pricePerGallon
      else 0) := by
    by_cases hp : 0 < i.pricePerGallon
    · rw [if_pos hp, if_pos hp]; ring
    · rw [if_neg hp, if_neg hp]
  refine ⟨_, rfl,
    ⟨round1_exists_int _, abs_round1_sub_le _⟩,
    ⟨round1_exists_int _, abs_round1_sub_le _⟩,
    ⟨ceil1_exists_int _, le_ceil1 _, ceil1_sub_lt _⟩,
    ⟨ceil1_exists_int _, le_ceil1 _, ceil1_sub_lt _⟩,
    ⟨ceil1_exists_int _, ?_, ?_⟩,
    ⟨ceil1_exists_int _, le_ceil1 _, ceil1_sub_lt _⟩,
    ⟨round2_exists_int _, ?_⟩,
    ⟨round0_exists_int _, abs_round0_sub_le _⟩⟩
  · rw [← e11]; exact le_ceil1 _
  · rw [← e11]; exact ceil1_sub_lt _
  · rw [← ecost]; exact abs_round2_sub_le _

/-- Witness for C5 at area 500, 1 coat, 35% solids, 1.5 mil DFT, TE 75, price 0. -/
theorem coverage_rounding_witness :
    ∃ r, calculatePaintCoverage ⟨500, 1, 35, 3 / 2, 75, 0⟩ = .ok r ∧
      ((∃ k : ℤ, r.theoreticalCoverage = k / 10) ∧
        |r.theoreticalCoverage - specTheoretical 35 (3 / 2)| ≤ 1 / 20) ∧
      ((∃ k : ℤ, r.practicalCoverage = k / 10) ∧
        |r.practicalCoverage - specPractical 35 (3 / 2) 75| ≤ 1 / 20) ∧
      ((∃ k : ℤ, r.gallonsPerCoat = k / 10) ∧
        specGallonsPerCoat 500 35 (3 / 2) 75 ≤ r.gallonsPerCoat ∧
        r.gallonsPerCoat - 1 / 10 < specGallonsPerCoat 500 35 (3 / 2) 75) ∧
      ((∃ k : ℤ, r.totalGallons = k / 10) ∧
        specTotalGallons 500 1 35 (3 / 2) 75 ≤ r.totalGallons ∧
        r.totalGallons - 1 / 10 < specTotalGallons 500 1 35 (3 / 2) 75) ∧
      ((∃ k : ℤ, r.totalWithWaste = k / 10) ∧
        specTotalGallons 500 1 35 (3 / 2) 75 * 1.1 ≤ r.totalWithWaste ∧
        r.totalWithWaste - 1 / 10 < specTotalGallons 500 1 35 (3 / 2) 75 * 1.1) ∧
      ((∃ k : ℤ, r.wasteFactorGallons = k / 10) ∧
        specTotalGallons 500 1 35 (3 / 2) 75 * 0.1 ≤ r.wasteFactorGallons ∧
        r.wasteFactorGallons - 1 / 10 < specTotalGallons 500 1 35 (3 / 2) 75 * 0.1) ∧
      ((∃ k : ℤ, r.estimatedCost = k / 100) ∧
        |r.estimatedCost - (if (0:ℚ) < 0 then specTotalGallons 500 1 35 (3 / 2) 75 * 1.1 * 0 else 0)| ≤ 1 / 200) ∧
      ((∃ k : ℤ, r.coveragePerGallon = k) ∧
        |r.coveragePerGallon - specPractical 35 (3 / 2) 75| ≤ 1 / 2) :=
  coverage_rounding ⟨500, 1, 35, 3 / 2, 75, 0⟩ (by norm_num) (by norm_num) (by norm_num) (by norm_num)

/-- `ceil1` of an integer is that integer. -/
theorem ceil1_intCast (n : ℤ) : ceil1 ((n : ℚ)) = (n : ℚ) := by
  rw [ceil1, show ((n : ℚ)) * 10 = ((10 * n : ℤ) : ℚ) by push_cast; ring, Int.ceil_intCast]
  push_cast
  ring

/-- Rounding `x` up at one decimal does not change how many 5-gallon
containers `Math.ceil` requires. -/
theorem ceil_div_five_ceil1_le (x : ℚ) : ⌈ceil1 x / 5⌉ ≤ ⌈x / 5⌉ := by
  rw [Int.ceil_le]
  have h1 : x / 5 ≤ (⌈x / 5⌉ : ℚ) := Int.le_ceil _
  have h2 : ceil1 x ≤ ((5 * ⌈x / 5⌉ : ℤ) : ℚ) := by
    have hx : x ≤ ((5 * ⌈x / 5⌉ : ℤ) : ℚ) := by push_cast; linarith
    calc ceil1 x ≤ ceil1 ((5 * ⌈x / 5⌉ : ℤ) : ℚ) := ceil1_mono hx
      _ = ((5 * ⌈x / 5⌉ : ℤ) : ℚ) := ceil1_intCast _
  push_cast at h2 ⊢
  linarith

/-- Rounding `x` up at one decimal does not change how many 1-gallon
containers `Math.ceil` requires. -/
theorem ceil_ceil1_le (x : ℚ) : ⌈ceil1 x⌉ ≤ ⌈x⌉ := by
  rw [Int.ceil_le]
  have h2 : ceil1 x ≤ ((⌈x⌉ : ℤ) : ℚ) := by
    calc ceil1 x ≤ ceil1 ((⌈x⌉ : ℤ) : ℚ) := ceil1_mono (Int.le_ceil x)
      _ = ((⌈x⌉ : ℤ) : ℚ) := ceil1_intCast _
  exact h2

/-- `Int.ceil` as a negated floor, so that `norm_num` (which evaluates
`Int.floor` on rational literals) can evaluate it. -/
theorem intCeil_eq_neg_floor (x : ℚ) : ⌈x⌉ = -⌊-x⌋ := by
  conv_lhs => rw [← neg_neg x]
  rw [Int.ceil_neg]

/-- Successful coverage result extractor (the `Except.ok` payload). -/
def coverageValue (i : CoverageInput) : CoverageResult :=
  ((calculatePaintCoverage i).toOption).getD default

/-- C7 counterexample: the input area=100, coats=0, solids=50, DFT=2 satisfies
every hypothesis the claim states (positive area, solids in (0,100], positive
DFT), the calculation succeeds, yet totalGallons = 0 < 0.4 = gallonsPerCoat,
so the claimed chain totalWithWaste ≥ totalGallons ≥ gallonsPerCoat > 0 fails. -/
theorem coverage_monotone_counterexample :
    (0 : ℚ) < 100 ∧ (0 : ℚ) < 50 ∧ (50 : ℚ) ≤ 100 ∧ (0 : ℚ) < 2 ∧
    (calculatePaintCoverage ⟨100, 0, 50, 2, 65, 0⟩).toOption.isSome = true ∧
    (coverageValue ⟨100, 0, 50, 2, 65, 0⟩).gallonsPerCoat = 2 / 5 ∧
    (coverageValue ⟨100, 0, 50, 2, 65, 0⟩).totalGallons = 0 ∧
    ¬((coverageValue ⟨100, 0, 50, 2, 65, 0⟩).gallonsPerCoat ≤
        (coverageValue ⟨100, 0, 50, 2, 65, 0⟩).totalGallons) := by
  have hok := calculatePaintCoverage_ok ⟨100, 0, 50, 2, 65, 0⟩
    (by norm_num) (by norm_num) (by norm_num) (by norm_num)
  have hg : (coverageValue ⟨100, 0, 50, 2, 65, 0⟩).gallonsPerCoat = 2 / 5 := by
    rw [coverageValue, hok]
    show ceil1 (specGallonsPerCoat 100 50 2 65) = 2 / 5
    rw [show specGallonsPerCoat 100 50 2 65 = 2000 / 5213 by
      norm_num [specGallonsPerCoat, specPractical, specTheoretical]]
    rw [ceil1, intCeil_eq_neg_floor]
    norm_num
  have ht : (coverageValue ⟨100, 0, 50, 2, 65, 0⟩).totalGallons = 0 := by
    rw [coverageValue, hok]
    show ceil1 (specTotalGallons 100 0 50 2 65) = 0
    rw [show specTotalGallons 100 0 50 2 65 = 0 by
      norm_num [specTotalGallons, specGallonsPerCoat, specPractical, specTheoretical]]
    rw [ceil1, intCeil_eq_neg_floor]
    norm_num
  refine ⟨by norm_num, by norm_num, by norm_num, by norm_num, by rw [hok]; rfl, hg, ht, ?_⟩
  rw [hg, ht]
  norm_num

/-- C7 (amended): for every input with positive area, solids in (0,100] and
positive DFT that also respects the data model's CoverageSpec invariants
(coat count ≥ 1, transfer efficiency > 0), the coverage engine succeeds with
totalWithWaste ≥ totalGallons ≥ gallonsPerCoat > 0 and container counts
fiveGallonBuckets ≥ ceil(totalWithWaste/5) and oneGallonCans ≥ ceil(totalWithWaste). -/
theorem coverage_monotone (i : CoverageInput)
    (ha : 0 < i.surfaceArea) (hs0 : 0 < i.volumeSolids) (hs1 : i.volumeSolids ≤ 100)
    (hd : 0 < i.targetDFT) (hc : 1 ≤ i.coats) (hte : 0 < i.transferEfficiency) :
    ∃ r, calculatePaintCoverage i = .ok r ∧
      0 < r.gallonsPerCoat ∧ r.gallonsPerCoat ≤ r.totalGallons ∧
      r.totalGallons ≤ r.totalWithWaste ∧
      ⌈r.totalWithWaste / 5⌉ ≤ r.fiveGallonBuckets ∧
      ⌈r.totalWithWaste⌉ ≤ r.oneGallonCans := by
  rw [calculatePaintCoverage_ok i ha hs0 hs1 hd]
  have htc : 0 < specTheoretical i.volumeSolids i.targetDFT := by
    rw [specTheoretical]
    exact div_pos (div_pos (mul_pos (by norm_num) hs0) (by norm_num)) hd
  have hpc : 0 < specPractical i.volumeSolids i.targetDFT i.transferEfficiency := by
    rw [specPractical]
    exact mul_pos htc (div_pos hte (by norm_num))
  have hgpc : 0 < specGallonsPerCoat i.surfaceArea i.volumeSolids i.targetDFT i.transferEfficiency := by
    rw [specGallonsPerCoat]
    exact div_pos ha hpc
  have htg : 0 < specTotalGallons i.surfaceArea i.coats i.volumeSolids i.targetDFT i.transferEfficiency := by
    rw [specTotalGallons]
    exact mul_pos hgpc (by linarith)
  have hge : specGallonsPerCoat i.surfaceArea i.volumeSolids i.targetDFT i.transferEfficiency ≤
      specTotalGallons i.surfaceArea i.coats i.volumeSolids i.targetDFT i.transferEfficiency := by
    rw [specTotalGallons]
    exact le_mul_of_one_le_right hgpc.le hc
  refine ⟨_, rfl, ceil1_pos hgpc, ceil1_mono hge, ceil1_mono (by linarith), ?_, ?_⟩
  · exact ceil_div_five_ceil1_le _
  · exact ceil_ceil1_le _

/-- Witness for the amended C7 at area 1000, 2 coats, 65% solids, 5 mil DFT,
TE 65, price 45. -/
theorem coverage_monotone_witness :
    ∃ r, calculatePaintCoverage ⟨1000, 2, 65, 5, 65, 45⟩ = .ok r ∧
      0 < r.gallonsPerCoat ∧ r.gallonsPerCoat ≤ r.totalGallons ∧
      r.totalGallons ≤ r.totalWithWaste ∧
      ⌈r.totalWithWaste / 5⌉ ≤ r.fiveGallonBuckets ∧
      ⌈r.totalWithWaste⌉ ≤ r.oneGallonCans :=
  coverage_monotone ⟨1000, 2, 65, 5, 65, 45⟩ (by norm_num) (by norm_num) (by norm_num)
    (by norm_num) (by norm_num) (by norm_num)

/-- Embedding of `calculateSpreadingRate` (technical.ts lines 584-588):
dft = wft·volumeSolids/100, coverage = K·volumeSolids/dft, rounded to 1 decimal. -/
def calculateSpreadingRate (wft volumeSolids : ℚ) : ℚ :=
  round1 (COVERAGE_CONSTANT * volumeSolids / (wft * volumeSolids / 100))

/-- C10: the volume-solids argument cancels out of `calculateSpreadingRate`:
for any wet film thickness w > 0 and nonzero solids s1, s2 the results agree,
and both equal 160400/w rounded to 1 decimal. -/
theorem spreadingRate_solids_independent (w s1 s2 : ℚ)
    (hw : 0 < w) (h1 : s1 ≠ 0) (h2 : s2 ≠ 0) :
    calculateSpreadingRate w s1 = calculateSpreadingRate w s2 ∧
    calculateSpreadingRate w s1 = round1 (160400 / w) := by
  have key : ∀ s : ℚ, s ≠ 0 → 1604 * s / (w * s / 100) = 160400 / w := by
    intro s hs
    field_simp
    ring
  rw [calculateSpreadingRate, calculateSpreadingRate, COVERAGE_CONSTANT, key s1 h1, key s2 h2]
  exact ⟨rfl, rfl⟩

/-- Witness for C10 at w = 2, s1 = 50, s2 = 80. -/
theorem spreadingRate_solids_independent_witness :
    calculateSpreadingRate 2 50 = calculateSpreadingRate 2 80 ∧
    calculateSpreadingRate 2 50 = round1 (160400 / 2) :=
  spreadingRate_solids_independent 2 50 80 (by norm_num) (by norm_num) (by norm_num)

/-- A coating layer of a multi-coat system (`CoatingLayer` in `types.ts`). -/
structure CoatingLayer where
  volumeSolids : ℚ
  dft : ℚ
  coats : ℚ
  pricePerGallon : Option ℚ := none
  productName : Option String := none
deriving DecidableEq

/-- Input of `calculateMultiCoatSystem` (`MultiCoatInput` in `types.ts`);
the source default `transferEfficiency = 65` is mirrored as a field default. -/
structure MultiCoatInput where
  surfaceArea : ℚ
  primer : Option CoatingLayer := none
  intermediate : Option CoatingLayer := none
  topcoat : Option CoatingLayer := none
  transferEfficiency : ℚ := 65

/-- A per-layer entry of the multi-coat result: the spread `CoverageResult`
plus the added `totalDFT` and rounded `cost` fields. -/
structure LayerResult where
  coverage : CoverageResult
  totalDFT : ℚ
  cost : ℚ
deriving DecidableEq

/-- Summary block of `MultiCoatResult`. -/
structure MultiCoatSummary where
  totalDFT : ℚ
  totalCost : ℚ
  costPerSquareFoot : ℚ
  totalGallons : ℚ
  systemDescription : String

/-- Result of `calculateMultiCoatSystem` (`MultiCoatResult` in `types.ts`);
the `layers` record has the three fixed keys, absent layers are `none`. -/
structure MultiCoatResult where
  primer : Option LayerResult
  intermediate : Option LayerResult
  topcoat : Option LayerResult
  summary : MultiCoatSummary

/-- The `CoverageInput` that `calculateMultiCoatSystem` builds for one layer
(coverage.ts lines 148-155): the layer's parameters, the system-level
transfer efficiency, and `layer.pricePerGallon || 0`. -/
def layerCoverageInput (surfaceArea transferEfficiency : ℚ) (l : CoatingLayer) : CoverageInput :=
  { surfaceArea := surfaceArea
    coats := l.coats
    volumeSolids := l.volumeSolids
    targetDFT := l.dft
    transferEfficiency := transferEfficiency
    pricePerGallon := l.pricePerGallon.getD 0 }

/-- One iteration of the source's layer loop (coverage.ts lines 145-167):
skip an absent layer or one with `coats ≤ 0`; otherwise run the coverage
engine (whose exception aborts the whole computation) and record the layer
result together with the un-rounded layer cost added to the accumulator. -/
def processLayer (surfaceArea transferEfficiency : ℚ) (layer : Option CoatingLayer) :
    Except String (Option (LayerResult × ℚ)) :=
  match layer with
  | none => .ok none
  | some l =>
    if 0 < l.coats then
      match calculatePaintCoverage (layerCoverageInput surfaceArea transferEfficiency l) with
      | .error e => .error e
      | .ok coverage =>
        let layerCost := coverage.totalGallons * l.pricePerGallon.getD 0
        .ok (some ({ coverage := coverage, totalDFT := l.dft * l.coats,
                     cost := round2 layerCost }, layerCost))
    else .ok none

/-- One entry of the `descriptions` array in `generateSystemDescription`. -/
def layerDesc (label : String) (lr : LayerResult) : String :=
  label ++ ": " ++ toString lr.totalDFT ++ " mils DFT"

/-- Embedding of `generateSystemDescription` (coverage.ts lines 209-221):
push an entry per present layer, in the fixed order, join with " | ". -/
def generateSystemDescription (p m t : Option LayerResult) : String :=
  String.intercalate " | "
    ((p.toList.map (layerDesc "Primer")) ++ (m.toList.map (layerDesc "Intermediate")) ++
      (t.toList.map (layerDesc "Topcoat")))

/-- Embedding of `calculateMultiCoatSystem` (coverage.ts lines 138-178).
The three layers are processed in the fixed primer → intermediate → topcoat
order; a layer failure aborts with its error; summary totals accumulate the
per-layer total DFT, the un-rounded layer costs, and the (rounded, per-layer)
returned totalGallons values. -/
def calculateMultiCoatSystem (input : MultiCoatInput) : Except String MultiCoatResult :=
  match processLayer input.surfaceArea input.transferEfficiency input.primer with
  | .error e => .error e
  | .ok p =>
    match processLayer input.surfaceArea input.transferEfficiency input.intermediate with
    | .error e => .error e
    | .ok m =>
      match processLayer input.surfaceArea input.transferEfficiency input.topcoat with
      | .error e => .error e
      | .ok t =>
        let totalCost := p.elim 0 Prod.snd + m.elim 0 Prod.snd + t.elim 0 Prod.snd
        let totalDFT := p.elim 0 (fun q => q.1.totalDFT) + m.elim 0 (fun q => q.1.totalDFT)
          + t.elim 0 (fun q => q.1.totalDFT)
        let totalGallons := p.elim 0 (fun q => q.1.coverage.totalGallons)
          + m.elim 0 (fun q => q.1.coverage.totalGallons)
          + t.elim 0 (fun q => q.1.coverage.totalGallons)
        .ok {
          primer := p.map Prod.fst
          intermediate := m.map Prod.fst
          topcoat := t.map Prod.fst
          summary := {
            totalDFT := round1 totalDFT
            totalCost := round2 totalCost
            costPerSquareFoot := round2 (totalCost / input.surfaceArea)
            totalGallons := round1 totalGallons
            systemDescription := generateSystemDescription (p.map Prod.fst) (m.map Prod.fst)
              (t.map Prod.fst) } }

/-- `Option.elim` after `Option.map`. -/
theorem optElim_map {α β γ : Type} (o : Option α) (f : α → β) (b : γ) (g : β → γ) :
    (o.map f).elim b g = o.elim b (fun x => g (f x)) := by
  cases o <;> rfl

/-- `Option.isSome` after `Option.map`. -/
theorem optIsSome_map {α β : Type} (o : Option α) (f : α → β) :
    (o.map f).isSome = o.isSome := by
  cases o <;> rfl

/-- Specification of one loop iteration: the layer is included exactly when
present with a positive coat count, and an included layer carries the
coverage-engine output, the layer total DFT, the rounded cost, and the
un-rounded cost accumulator contribution. -/
theorem processLayer_spec (sa te : ℚ) (o : Option CoatingLayer)
    (hval : ∀ l, o = some l → 0 < l.coats →
      0 < sa ∧ 0 < l.volumeSolids ∧ l.volumeSolids ≤ 100 ∧ 0 < l.dft) :
    ∃ po : Option (LayerResult × ℚ), processLayer sa te o = .ok po ∧
      (po.isSome = true ↔ ∃ l, o = some l ∧ 0 < l.coats) ∧
      (∀ l, o = some l → 0 < l.coats →
        ∃ c, calculatePaintCoverage (layerCoverageInput sa te l) = .ok c ∧
          po = some ({ coverage := c, totalDFT := l.dft * l.coats,
                         cost := round2 (c.totalGallons * l.pricePerGallon.getD 0) },
                     c.totalGallons * l.pricePerGallon.getD 0)) ∧
      po.elim 0 Prod.snd = (po.map Prod.fst).elim 0
        (fun lr => lr.coverage.totalGallons * ((o.bind CoatingLayer.pricePerGallon).getD 0)) := by
  cases o with
  | none =>
    refine ⟨none, rfl, by simp, by simp, rfl⟩
  | some l =>
    by_cases hc : 0 < l.coats
    · obtain ⟨h1, h2, h3, h4⟩ := hval l rfl hc
      obtain ⟨c, hok⟩ : ∃ c, calculatePaintCoverage (layerCoverageInput sa te l) = .ok c :=
        ⟨_, calculatePaintCoverage_ok (layerCoverageInput sa te l) h1 h2 h3 h4⟩
      refine ⟨some ({ coverage := c, totalDFT := l.dft * l.coats,
                      cost := round2 (c.totalGallons * l.pricePerGallon.getD 0) },
          c.totalGallons * l.pricePerGallon.getD 0), ?_, ?_, ?_, rfl⟩
      · simp only [processLayer]
        rw [if_pos hc, hok]
      · exact iff_of_true rfl ⟨l, rfl, hc⟩
      · intro m hm hcm
        obtain rfl : l = m := Option.some.inj hm
        exact ⟨c, hok, rfl⟩
    · refine ⟨none, ?_, ?_, ?_, rfl⟩
      · simp only [processLayer]
        rw [if_neg hc]
      · constructor
        · intro h
          exact absurd h (by simp)
        · rintro ⟨m, hm, hcm⟩
          obtain rfl : l = m := Option.some.inj hm
          exact absurd hcm hc
      · intro m hm hcm
        obtain rfl : l = m := Option.some.inj hm
        exact absurd hcm hc

/-- C6: for every multi-coat input whose included layers are valid, the
system calculation succeeds; a layer appears in the result exactly when it
is present with coats > 0; each included layer carries the coverage-engine
result for its parameters with the system-level transfer efficiency, its
totalDFT = dft·coats and its rounded cost = totalGallons·price; the summary
accumulates totalDFT, totalGallons and the un-rounded costs over exactly the
included layers, with costPerSquareFoot = totalCost/surfaceArea; and the
description joins the included layers' entries with " | " in the fixed
primer, intermediate, topcoat order, omitting absent layers. -/
theorem multiCoat_spec (i : MultiCoatInput)
    (hp : ∀ l, i.primer = some l → 0 < l.coats →
      0 < i.surfaceArea ∧ 0 < l.volumeSolids ∧ l.volumeSolids ≤ 100 ∧ 0 < l.dft)
    (hm : ∀ l, i.intermediate = some l → 0 < l.coats →
      0 < i.surfaceArea ∧ 0 < l.volumeSolids ∧ l.volumeSolids ≤ 100 ∧ 0 < l.dft)
    (ht : ∀ l, i.topcoat = some l → 0 < l.coats →
      0 < i.surfaceArea ∧ 0 < l.volumeSolids ∧ l.volumeSolids ≤ 100 ∧ 0 < l.dft) :
    ∃ r, calculateMultiCoatSystem i = .ok r ∧
      (r.primer.isSome = true ↔ ∃ l, i.primer = some l ∧ 0 < l.coats) ∧
      (r.intermediate.isSome = true ↔ ∃ l, i.intermediate = some l ∧ 0 < l.coats) ∧
      (r.topcoat.isSome = true ↔ ∃ l, i.topcoat = some l ∧ 0 < l.coats) ∧
      (∀ l, i.primer = some l → 0 < l.coats →
        ∃ c, calculatePaintCoverage (layerCoverageInput i.surfaceArea i.transferEfficiency l) = .ok c ∧
          r.primer = some { coverage := c, totalDFT := l.dft * l.coats,
                            cost := round2 (c.totalGallons * l.pricePerGallon.getD 0) }) ∧
      (∀ l, i.intermediate = some l → 0 < l.coats →
        ∃ c, calculatePaintCoverage (layerCoverageInput i.surfaceArea i.transferEfficiency l) = .ok c ∧
          r.intermediate = some { coverage := c, totalDFT := l.dft * l.coats,
                                  cost := round2 (c.totalGallons * l.pricePerGallon.getD 0) }) ∧
      (∀ l, i.topcoat = some l → 0 < l.coats →
        ∃ c, calculatePaintCoverage (layerCoverageInput i.surfaceArea i.transferEfficiency l) = .ok c ∧
          r.topcoat = some { coverage := c, totalDFT := l.dft * l.coats,
                             cost := round2 (c.totalGallons * l.pricePerGallon.getD 0) }) ∧
      r.summary.totalDFT = round1 (r.primer.elim 0 LayerResult.totalDFT
        + r.intermediate.elim 0 LayerResult.totalDFT + r.topcoat.elim 0 LayerResult.totalDFT) ∧
      r.summary.totalGallons = round1 (r.primer.elim 0 (fun lr => lr.coverage.totalGallons)
        + r.intermediate.elim 0 (fun lr => lr.coverage.totalGallons)
        + r.topcoat.elim 0 (fun lr => lr.coverage.totalGallons)) ∧
      (∃ rawCost : ℚ,
        rawCost = r.primer.elim 0
            (fun lr => lr.coverage.totalGallons * ((i.primer.bind CoatingLayer.pricePerGallon).getD 0))
          + r.intermediate.elim 0
            (fun lr => lr.coverage.totalGallons * ((i.intermediate.bind CoatingLayer.pricePerGallon).getD 0))
          + r.topcoat.elim 0
            (fun lr => lr.coverage.totalGallons * ((i.topcoat.bind CoatingLayer.pricePerGallon).getD 0)) ∧
        r.summary.totalCost = round2 rawCost ∧
        r.summary.costPerSquareFoot = round2 (rawCost / i.surfaceArea)) ∧
      r.summary.systemDescription = String.intercalate " | "
        ((r.primer.toList.map (layerDesc "Primer"))
          ++ (r.intermediate.toList.map (layerDesc "Intermediate"))
          ++ (r.topcoat.toList.map (layerDesc "Topcoat"))) := by
  obtain ⟨po, hpo, hpo1, hpo2, hpo3⟩ := processLayer_spec i.surfaceArea i.transferEfficiency i.primer hp
  obtain ⟨mo, hmo, hmo1, hmo2, hmo3⟩ := processLayer_spec i.surfaceArea i.transferEfficiency i.intermediate hm
  obtain ⟨tpo, hto, hto1, hto2, hto3⟩ := processLayer_spec i.surfaceArea i.transferEfficiency i.topcoat ht
  simp only [calculateMultiCoatSystem, hpo, hmo, hto]
  refine ⟨_, rfl, ?_, ?_, ?_, ?_, ?_, ?_, ?_, ?_, ?_, ?_⟩
  · simp only [optIsSome_map]
    exact hpo1
  · simp only [optIsSome_map]
    exact hmo1
  · simp only [optIsSome_map]
    exact hto1
  · intro l hl hc
    obtain ⟨c, hcc, hpe⟩ := hpo2 l hl hc
    exact ⟨c, hcc, by simp [hpe]⟩
  · intro l hl hc
    obtain ⟨c, hcc, hpe⟩ := hmo2 l hl hc
    exact ⟨c, hcc, by simp [hpe]⟩
  · intro l hl hc
    obtain ⟨c, hcc, hpe⟩ := hto2 l hl hc
    exact ⟨c, hcc, by simp [hpe]⟩
  · simp only [optElim_map]
  · simp only [optElim_map]
  · refine ⟨po.elim 0 Prod.snd + mo.elim 0 Prod.snd + tpo.elim 0 Prod.snd, ?_, rfl, rfl⟩
    rw [hpo3, hmo3, hto3]
  · rfl

/-- Example two-layer system: epoxy primer and topcoat over 1000 sq ft. -/
def exSystem : MultiCoatInput :=
  { surfaceArea := 1000
    primer := some { volumeSolids := 75, dft := 3, coats := 1, pricePerGallon := some 30 }
    intermediate := none
    topcoat := some { volumeSolids := 65, dft := 3, coats := 2, pricePerGallon := some 40 }
    transferEfficiency := 65 }

/-- Witness for C6 at `exSystem` (primer and topcoat present, no intermediate). -/
theorem multiCoat_spec_witness :
    ∃ r, calculateMultiCoatSystem exSystem = .ok r ∧
      (r.primer.isSome = true ↔ ∃ l, exSystem.primer = some l ∧ 0 < l.coats) ∧
      (r.intermediate.isSome = true ↔ ∃ l, exSystem.intermediate = some l ∧ 0 < l.coats) ∧
      (r.topcoat.isSome = true ↔ ∃ l, exSystem.topcoat = some l ∧ 0 < l.coats) ∧
      (∀ l, exSystem.primer = some l → 0 < l.coats →
        ∃ c, calculatePaintCoverage (layerCoverageInput exSystem.surfaceArea exSystem.transferEfficiency l) = .ok c ∧
          r.primer = some { coverage := c, totalDFT := l.dft * l.coats,
                            cost := round2 (c.totalGallons * l.pricePerGallon.getD 0) }) ∧
      (∀ l, exSystem.intermediate = some l → 0 < l.coats →
        ∃ c, calculatePaintCoverage (layerCoverageInput exSystem.surfaceArea exSystem.transferEfficiency l) = .ok c ∧
          r.intermediate = some { coverage := c, totalDFT := l.dft * l.coats,
                                  cost := round2 (c.totalGallons * l.pricePerGallon.getD 0) }) ∧
      (∀ l, exSystem.topcoat = some l → 0 < l.coats →
        ∃ c, calculatePaintCoverage (layerCoverageInput exSystem.surfaceArea exSystem.transferEfficiency l) = .ok c ∧
          r.topcoat = some { coverage := c, totalDFT := l.dft * l.coats,
                             cost := round2 (c.totalGallons * l.pricePerGallon.getD 0) }) ∧
      r.summary.totalDFT = round1 (r.primer.elim 0 LayerResult.totalDFT
        + r.intermediate.elim 0 LayerResult.totalDFT + r.topcoat.elim 0 LayerResult.totalDFT) ∧
      r.summary.totalGallons = round1 (r.primer.elim 0 (fun lr => lr.coverage.totalGallons)
        + r.intermediate.elim 0 (fun lr => lr.coverage.totalGallons)
        + r.topcoat.elim 0 (fun lr => lr.coverage.totalGallons)) ∧
      (∃ rawCost : ℚ,
        rawCost = r.primer.elim 0
            (fun lr => lr.coverage.totalGallons * ((exSystem.primer.bind CoatingLayer.pricePerGallon).getD 0))
          + r.intermediate.elim 0
            (fun lr => lr.coverage.totalGallons * ((exSystem.intermediate.bind CoatingLayer.pricePerGallon).getD 0))
          + r.topcoat.elim 0
            (fun lr => lr.coverage.totalGallons * ((exSystem.topcoat.bind CoatingLayer.pricePerGallon).getD 0)) ∧
        r.summary.totalCost = round2 rawCost ∧
        r.summary.costPerSquareFoot = round2 (rawCost / exSystem.surfaceArea)) ∧
      r.summary.systemDescription = String.intercalate " | "
        ((r.primer.toList.map (layerDesc "Primer"))
          ++ (r.intermediate.toList.map (layerDesc "Intermediate"))
          ++ (r.topcoat.toList.map (layerDesc "Topcoat"))) :=
  multiCoat_spec exSystem
    (by intro l hl hc
        rw [show exSystem.primer = some ⟨75, 3, 1, some 30, none⟩ from rfl] at hl
        obtain rfl := Option.some.inj hl
        norm_num [exSystem])
    (by intro l hl hc
        exact Option.noConfusion hl)
    (by intro l hl hc
        rw [show exSystem.topcoat = some ⟨65, 3, 2, some 40, none⟩ from rfl] at hl
        obtain rfl := Option.some.inj hl
        norm_num [exSystem])

/-- Shared helper: the coverage engine throws on any input violating one of
its three guards. -/
theorem calculatePaintCoverage_error_of (i : CoverageInput)
    (h : i.surfaceArea ≤ 0 ∨ i.volumeSolids ≤ 0 ∨ 100 < i.volumeSolids ∨ i.targetDFT ≤ 0) :
    ∃ e, calculatePaintCoverage i = .error e := by
  rw [calculatePaintCoverage]
  split_ifs with h1 h2 h3
  · exact ⟨_, rfl⟩
  · exact ⟨_, rfl⟩
  · exact ⟨_, rfl⟩
  · exfalso
    push_neg at h2
    rcases h with h | h | h | h
    · exact h1 h
    · exact absurd h (not_le.mpr h2.1)
    · exact absurd h (not_lt.mpr h2.2)
    · exact h3 h

/-- Shared helper: an included layer with invalid parameters makes its loop
iteration (and hence the whole multi-coat calculation) throw. -/
theorem processLayer_error (sa te : ℚ) (l : CoatingLayer) (hc : 0 < l.coats)
    (hbad : sa ≤ 0 ∨ l.volumeSolids ≤ 0 ∨ 100 < l.volumeSolids ∨ l.dft ≤ 0) :
    ∃ e, processLayer sa te (some l) = .error e := by
  obtain ⟨e, he⟩ := calculatePaintCoverage_error_of (layerCoverageInput sa te l) hbad
  refine ⟨e, ?_⟩
  simp only [processLayer]
  rw [if_pos hc, he]

/-- C8: if any included layer (present, coats > 0) violates a coverage-engine
precondition, `calculateMultiCoatSystem` signals `InvalidInput` — it returns
an error and no result object at all (the `Except` result carries no partial
layer data). -/
theorem multiCoat_error (i : MultiCoatInput) (l : CoatingLayer)
    (hmem : i.primer = some l ∨ i.intermediate = some l ∨ i.topcoat = some l)
    (hc : 0 < l.coats)
    (hbad : i.surfaceArea ≤ 0 ∨ l.volumeSolids ≤ 0 ∨ 100 < l.volumeSolids ∨ l.dft ≤ 0) :
    ∃ e, calculateMultiCoatSystem i = .error e := by
  cases hP : processLayer i.surfaceArea i.transferEfficiency i.primer with
  | error e => exact ⟨e, by rw [calculateMultiCoatSystem, hP]⟩
  | ok po =>
    cases hM : processLayer i.surfaceArea i.transferEfficiency i.intermediate with
    | error e => exact ⟨e, by rw [calculateMultiCoatSystem, hP, hM]⟩
    | ok mo =>
      cases hT : processLayer i.surfaceArea i.transferEfficiency i.topcoat with
      | error e => exact ⟨e, by rw [calculateMultiCoatSystem, hP, hM, hT]⟩
      | ok tpo =>
        exfalso
        obtain ⟨e, he⟩ := processLayer_error i.surfaceArea i.transferEfficiency l hc hbad
        rcases hmem with hmem | hmem | hmem
        · rw [hmem] at hP
          rw [hP] at he
          simp at he
        · rw [hmem] at hM
          rw [hM] at he
          simp at he
        · rw [hmem] at hT
          rw [hT] at he
          simp at he

/-- Witness for C8: a system whose only layer (topcoat) has volumeSolids 150 > 100. -/
theorem multiCoat_error_witness :
    ∃ e, calculateMultiCoatSystem ⟨1000, none, none, some ⟨150, 3, 2, none, none⟩, 65⟩ = .error e :=
  multiCoat_error ⟨1000, none, none, some ⟨150, 3, 2, none, none⟩, 65⟩ ⟨150, 3, 2, none, none⟩
    (Or.inr (Or.inr rfl)) (by norm_num) (by norm_num)

/-- JS `Math.round(x * 10) / 10` over the reals (dew-point calculator). -/
noncomputable def round1R (x : ℝ) : ℝ := (round (x * 10) : ℤ) / 10

/-- Input of `calculateDewPoint` (`DewPointInput` in `types.ts`). -/
structure DewPointInput where
  temperature : ℝ
  humidity : ℝ

/-- Result of `calculateDewPoint`.  The `recommendation` display string
(which interpolates a rounded real into text) is not modelled; `isSafe`
is the proposition the source's boolean decides. -/
structure DewPointResult where
  dewPoint : ℝ
  minimumSurfaceTemp : ℝ
  currentMargin : ℝ
  isSafe : Prop

/-- Embedding of `calculateDewPoint` (environmental.ts lines 238-256), with
the Magnus constants A = 17.27, B = 237.7 and the fixed dew-point margin 5
inlined as in `MAGNUS` / `CONSTANTS.DEW_POINT_MARGIN`. -/
noncomputable def calculateDewPoint (input : DewPointInput) : DewPointResult :=
  let alpha := (17.27 * input.temperature) / (237.7 + input.temperature)
    + Real.log (input.humidity / 100)
  let dewPoint := (237.7 * alpha) / (17.27 - alpha)
  let surfaceTemp := input.temperature - 5
  let currentMargin := surfaceTemp - dewPoint
  { dewPoint := round1R dewPoint
    minimumSurfaceTemp := round1R (dewPoint + 5)
    currentMargin := round1R currentMargin
    isSafe := 5 ≤ currentMargin }

/-- Spec formula (§4.2): α = (A·T)/(B+T) + ln(RH/100). -/
noncomputable def specAlpha (T RH : ℝ) : ℝ :=
  (17.27 * T) / (237.7 + T) + Real.log (RH / 100)

/-- Spec formula (§4.2): dewPoint = (B·α)/(A−α). -/
noncomputable def specDewPoint (T RH : ℝ) : ℝ :=
  (237.7 * specAlpha T RH) / (17.27 - specAlpha T RH)

/-- Shared helper: the four observable fields of `calculateDewPoint`,
written with the spec formulas (they coincide definitionally). -/
theorem calculateDewPoint_fields (i : DewPointInput) :
    (calculateDewPoint i).dewPoint = round1R (specDewPoint i.temperature i.humidity) ∧
    (calculateDewPoint i).currentMargin
      = round1R (i.temperature - 5 - specDewPoint i.temperature i.humidity) ∧
    ((calculateDewPoint i).isSafe ↔ 5 ≤ i.temperature - 5 - specDewPoint i.temperature i.humidity) ∧
    (calculateDewPoint i).minimumSurfaceTemp
      = round1R (specDewPoint i.temperature i.humidity + 5) :=
  ⟨rfl, rfl, Iff.rfl, rfl⟩

/-- C2: for temperature T and humidity RH in (0,100], `calculateDewPoint`
computes α = (17.27·T)/(237.7+T) + ln(RH/100) and dewPoint = (237.7·α)/(17.27−α);
surfaceTemp = T − 5; currentMargin = surfaceTemp − dewPoint; isSafe holds iff
currentMargin ≥ 5; and the returned dewPoint, currentMargin and
minimumSurfaceTemp = dewPoint + 5 are rounded to 1 decimal. -/
theorem dewPoint_formulas (i : DewPointInput)
    (h0 : 0 < i.humidity) (h1 : i.humidity ≤ 100) :
    (calculateDewPoint i).dewPoint = round1R (specDewPoint i.temperature i.humidity) ∧
    (calculateDewPoint i).currentMargin
      = round1R (i.temperature - 5 - specDewPoint i.temperature i.humidity) ∧
    ((calculateDewPoint i).isSafe ↔ 5 ≤ i.temperature - 5 - specDewPoint i.temperature i.humidity) ∧
    (calculateDewPoint i).minimumSurfaceTemp
      = round1R (specDewPoint i.temperature i.humidity + 5) :=
  calculateDewPoint_fields i

/-- Witness for C2 at 75°F / 65% RH. -/
theorem dewPoint_formulas_witness :
    (calculateDewPoint ⟨75, 65⟩).dewPoint = round1R (specDewPoint 75 65) ∧
    (calculateDewPoint ⟨75, 65⟩).currentMargin = round1R ((75:ℝ) - 5 - specDewPoint 75 65) ∧
    ((calculateDewPoint ⟨75, 65⟩).isSafe ↔ 5 ≤ (75:ℝ) - 5 - specDewPoint 75 65) ∧
    (calculateDewPoint ⟨75, 65⟩).minimumSurfaceTemp = round1R (specDewPoint 75 65 + 5) :=
  dewPoint_formulas ⟨75, 65⟩ (by norm_num) (by norm_num)

/-- ln(13/20) < −0.43, via exp(−0.43) ≥ (1 − 0.43/256)^256 > 13/20. -/
theorem log_thirteen_twentieths_ub : Real.log (13 / 20 : ℝ) < -0.43 := by
  rw [Real.log_lt_iff_lt_exp (by norm_num : (0:ℝ) < 13 / 20)]
  have h1 : (1 + (-0.43 / 256 : ℝ)) ≤ Real.exp (-0.43 / 256) := by
    have := Real.add_one_le_exp (-0.43 / 256 : ℝ)
    linarith
  have h0 : (0:ℝ) ≤ 1 + (-0.43 / 256) := by norm_num
  have h2 : (1 + (-0.43 / 256 : ℝ)) ^ 256 ≤ (Real.exp (-0.43 / 256)) ^ 256 :=
    pow_le_pow_left h0 h1 256
  have h3 : (Real.exp (-0.43 / 256 : ℝ)) ^ 256 = Real.exp (-0.43) := by
    rw [← Real.exp_nat_mul]
    congr 1
    push_cast
    norm_num
  have h4 : (13 / 20 : ℝ) < (1 + (-0.43 / 256)) ^ 256 := by norm_num
  linarith

/-- −0.4312 < ln(13/20), via exp(0.4312) ≥ (1 + 0.4312/256)^256 > 20/13. -/
theorem log_thirteen_twentieths_lb : (-0.4312 : ℝ) < Real.log (13 / 20 : ℝ) := by
  rw [Real.lt_log_iff_exp_lt (by norm_num : (0:ℝ) < 13 / 20)]
  have h1 : (1 + (0.4312 / 256 : ℝ)) ≤ Real.exp (0.4312 / 256) := by
    have := Real.add_one_le_exp (0.4312 / 256 : ℝ)
    linarith
  have h0 : (0:ℝ) ≤ 1 + (0.4312 / 256) := by norm_num
  have h2 : (1 + (0.4312 / 256 : ℝ)) ^ 256 ≤ (Real.exp (0.4312 / 256)) ^ 256 :=
    pow_le_pow_left h0 h1 256
  have h3 : (Real.exp (0.4312 / 256 : ℝ)) ^ 256 = Real.exp 0.4312 := by
    rw [← Real.exp_nat_mul]
    congr 1
    push_cast
    norm_num
  have h4 : (20 / 13 : ℝ) < (1 + 0.4312 / 256) ^ 256 := by norm_num
  have h5 : (20 / 13 : ℝ) < Real.exp 0.4312 := by linarith
  rw [Real.exp_neg]
  calc (Real.exp 0.4312)⁻¹ < ((20 / 13 : ℝ))⁻¹ := by
        exact inv_lt_inv_of_lt (by norm_num) h5
    _ = 13 / 20 := by norm_num

/-- The raw (un-rounded) dew point at 75°F / 65% RH lies in (65.05, 65.15). -/
theorem dewPoint_75_65_bounds :
    (65.05 : ℝ) < specDewPoint 75 65 ∧ specDewPoint 75 65 < 65.15 := by
  have hlog1 : Real.log ((65:ℝ) / 100) < -0.43 := by
    rw [show ((65:ℝ) / 100) = 13 / 20 by norm_num]
    exact log_thirteen_twentieths_ub
  have hlog2 : (-0.4312 : ℝ) < Real.log ((65:ℝ) / 100) := by
    rw [show ((65:ℝ) / 100) = 13 / 20 by norm_num]
    exact log_thirteen_twentieths_lb
  have hA : specAlpha 75 65 = 25905 / 6254 + Real.log ((65:ℝ) / 100) := by
    rw [specAlpha]
    norm_num
  have hden : 0 < 17.27 - specAlpha 75 65 := by
    rw [hA]
    linarith
  constructor
  · rw [specDewPoint, lt_div_iff₀ hden, hA]
    linarith
  · rw [specDewPoint, div_lt_iff₀ hden, hA]
    linarith

/-- A two-sided bound pins `round1R` to an exact tenth. -/
theorem round1R_eq_of_bounds {x : ℝ} {n : ℤ} (h1 : (n : ℝ) ≤ x * 10 + 1 / 2)
    (h2 : x * 10 + 1 / 2 < (n : ℝ) + 1) : round1R x = n / 10 := by
  rw [round1R, round_eq]
  have h : ⌊x * 10 + 1 / 2⌋ = n := by
    rw [Int.floor_eq_iff]
    exact ⟨h1, h2⟩
  rw [h]

/-- Shared helper: the rounded dew-point outputs at 75°F / 65% RH. -/
theorem dewPoint_75_65_rounded :
    round1R (specDewPoint 75 65) = 65.1 ∧
    round1R (specDewPoint 75 65 + 5) = 70.1 ∧
    round1R ((75:ℝ) - 5 - specDewPoint 75 65) = 4.9 ∧
    ¬(5 ≤ (75:ℝ) - 5 - specDewPoint 75 65) := by
  obtain ⟨hb1, hb2⟩ := dewPoint_75_65_bounds
  refine ⟨?_, ?_, ?_, ?_⟩
  · rw [round1R_eq_of_bounds (n := 651) (by linarith) (by push_cast; linarith)]
    norm_num
  · rw [round1R_eq_of_bounds (n := 701) (by push_cast; linarith) (by push_cast; linarith)]
    norm_num
  · rw [round1R_eq_of_bounds (n := 49) (by push_cast; linarith) (by push_cast; linarith)]
    norm_num
  · intro h
    linarith

/-- C3 counterexample: at temperature 75°F and humidity 65%, the returned
dewPoint (65.1 after 1-decimal rounding) is 3.5°F away from the spec's
claimed 61.6°F — not within 0.1 — and isSafe is false, not true. -/
theorem dewPoint_example_counterexample :
    (1 / 10 : ℝ) < |(calculateDewPoint ⟨75, 65⟩).dewPoint - 61.6| ∧
    ¬(calculateDewPoint ⟨75, 65⟩).isSafe := by
  obtain ⟨hd, hm, hc, hs⟩ := dewPoint_75_65_rounded
  constructor
  · have e1 : (calculateDewPoint ⟨75, 65⟩).dewPoint = round1R (specDewPoint 75 65) := rfl
    rw [e1, hd, show |(65.1 : ℝ) - 61.6| = 3.5 by
      rw [show (65.1 : ℝ) - 61.6 = 3.5 by norm_num, abs_of_pos (by norm_num : (0:ℝ) < 3.5)]]
    norm_num
  · have e2 : (calculateDewPoint ⟨75, 65⟩).isSafe ↔ 5 ≤ (75:ℝ) - 5 - specDewPoint 75 65 := Iff.rfl
    rw [e2]
    exact hs

/-- C3 (amended): at temperature 75°F and humidity 65%, `calculateDewPoint`
returns dewPoint 65.1°F (not ≈61.6°F) after 1-decimal rounding,
minimumSurfaceTemp 70.1°F, currentMargin 4.9°F over the 70°F surface
temperature, and isSafe = false since the margin is below 5°F. -/
theorem dewPoint_example : (calculateDewPoint ⟨75, 65⟩).dewPoint = 65.1 ∧
    (calculateDewPoint ⟨75, 65⟩).minimumSurfaceTemp = 70.1 ∧
    (calculateDewPoint ⟨75, 65⟩).currentMargin = 4.9 ∧
    ¬(calculateDewPoint ⟨75, 65⟩).isSafe := by
  obtain ⟨hd, hmin, hm, hs⟩ := dewPoint_75_65_rounded
  refine ⟨?_, ?_, ?_, ?_⟩
  · have e : (calculateDewPoint ⟨75, 65⟩).dewPoint = round1R (specDewPoint 75 65) := rfl
    rw [e, hd]
  · have e : (calculateDewPoint ⟨75, 65⟩).minimumSurfaceTemp
        = round1R (specDewPoint 75 65 + 5) := rfl
    rw [e, hmin]
  · have e : (calculateDewPoint ⟨75, 65⟩).currentMargin
        = round1R ((75:ℝ) - 5 - specDewPoint 75 65) := rfl
    rw [e, hm]
  · have e : (calculateDewPoint ⟨75, 65⟩).isSafe ↔ 5 ≤ (75:ℝ) - 5 - specDewPoint 75 65 := Iff.rfl
    rw [e]
    exact hs

/-- Input of `calculateWFT` (`WFTInput` in `types.ts`); the source default
`reductionPercent = 0` is mirrored as a field default. -/
structure WFTInput where
  targetDFT : ℚ
  volumeSolids : ℚ
  reductionPercent : ℚ := 0
deriving DecidableEq

/-- Result of `calculateWFT` (`WFTResult` in `types.ts`). -/
structure WFTResult where
  wetFilmThickness : ℚ
  adjustedSolids : ℚ
  wetFilmGauge : String
  applicationTips : List String
deriving DecidableEq

/-- The `adjustedSolids` local of `calculateWFT` (technical.ts line 470):
volume solids reduced by the thinning percentage.  This is the divisor of
the wet-film-thickness division. -/
def wftAdjustedSolids (i : WFTInput) : ℚ :=
  i.volumeSolids * (1 - i.reductionPercent / 100)

/-- Embedding of `calculateWFT` (technical.ts lines 467-505).  No input
validation: every input produces a result. -/
def calculateWFT (i : WFTInput) : WFTResult :=
  let adjustedSolids := wftAdjustedSolids i
  let wetFilmThickness := i.targetDFT / adjustedSolids * 100
  let wetFilmGauge :=
    if wetFilmThickness ≤ 25 then "0-25 mil gauge"
    else if wetFilmThickness ≤ 50 then "0-50 mil gauge"
    else if wetFilmThickness ≤ 100 then "0-100 mil gauge"
    else "Use multiple passes or special gauge"
  let applicationTips :=
    (if 20 < wetFilmThickness then ["Apply in multiple passes to avoid sagging"] else [])
    ++ (if 10 < i.reductionPercent then
        ["Thinning by " ++ toString i.reductionPercent ++ "% may affect coating properties"]
      else [])
    ++ (if adjustedSolids < 50 then ["Multiple coats may be required for proper build"] else [])
    ++ ["Check WFT immediately after application using " ++ wetFilmGauge]
  { wetFilmThickness := round1 wetFilmThickness
    adjustedSolids := round1 adjustedSolids
    wetFilmGauge := wetFilmGauge
    applicationTips := applicationTips }

/-- The `currentSystem` block of `ROIInput` in `types.ts`. -/
structure ROICurrentSystem where
  maintenanceCost : ℚ
  lifespan : ℚ
  heatTransfer : Option ℚ := none

/-- The `proposedSystem` block of `ROIInput` in `types.ts`. -/
structure ROIProposedSystem where
  initialCost : ℚ
  maintenanceCost : ℚ
  lifespan : ℚ
  reflectivity : Option ℚ := none

/-- Input of `calculateROI` (`ROIInput` in `types.ts`), with the source
defaults `energyCosts = 0.12` and `discountRate = 0.05`. -/
structure ROIInput where
  currentSystem : ROICurrentSystem
  proposedSystem : ROIProposedSystem
  facilitySize : ℚ
  energyCosts : ℚ := 0.12
  discountRate : ℚ := 0.05

/-- Result of `calculateROI` (`ROIResult` in `types.ts`, flattened). -/
structure ROIResult where
  currentAnnualCost : ℚ
  currentTenYearCost : ℚ
  proposedInitialCost : ℚ
  annualSavings : ℚ
  tenYearSavings : ℚ
  paybackPeriod : ℚ
  tenYearROI : ℚ
  netPresentValue : ℚ

/-- Embedding of the `calculateNPV` helper (cost.ts lines 444-450):
npv = −investment + Σ_{year=1..years} cashFlow/(1+rate)^year. -/
def calculateNPV (annualCashFlow initialInvestment : ℚ) (years : ℕ) (discountRate : ℚ) : ℚ :=
  -initialInvestment
    + (Finset.range years).sum (fun year => annualCashFlow / (1 + discountRate) ^ (year + 1))

/-- The `annualSavings` local of `calculateROI` (cost.ts lines 391-399):
current total annual cost minus proposed total annual cost.  This is the
divisor of the payback-period division. -/
def roiAnnualSavings (i : ROIInput) : ℚ :=
  let currentAnnualMaintenance := i.currentSystem.maintenanceCost / i.currentSystem.lifespan
  let currentEnergyLoss := (i.currentSystem.heatTransfer.getD 0) * i.facilitySize * i.energyCosts * 0.01
  let currentTotalAnnual := currentAnnualMaintenance + currentEnergyLoss
  let proposedAnnualMaintenance := i.proposedSystem.maintenanceCost / i.proposedSystem.lifespan
  let proposedEnergySavings := (i.proposedSystem.reflectivity.getD 0) * i.facilitySize * i.energyCosts * 0.0015
  let proposedTotalAnnual := proposedAnnualMaintenance - proposedEnergySavings
  currentTotalAnnual - proposedTotalAnnual

/-- Embedding of `calculateROI` (cost.ts lines 388-421).  No input
validation: every input produces a result. -/
def calculateROI (i : ROIInput) : ROIResult :=
  let currentTotalAnnual := i.currentSystem.maintenanceCost / i.currentSystem.lifespan
    + (i.currentSystem.heatTransfer.getD 0) * i.facilitySize * i.energyCosts * 0.01
  let annualSavings := roiAnnualSavings i
  let paybackPeriod := i.proposedSystem.initialCost / annualSavings
  let tenYearSavings := annualSavings * 10
  let tenYearReturn := (tenYearSavings - i.proposedSystem.initialCost) / i.proposedSystem.initialCost * 100
  let netPresentValue := calculateNPV annualSavings i.proposedSystem.initialCost 10 i.discountRate
  { currentAnnualCost := round2 currentTotalAnnual
    currentTenYearCost := round2 (currentTotalAnnual * 10)
    proposedInitialCost := i.proposedSystem.initialCost
    annualSavings := round2 annualSavings
    tenYearSavings := round2 tenYearSavings
    paybackPeriod := round1 paybackPeriod
    tenYearROI := round1 tenYearReturn
    netPresentValue := round2 netPresentValue }

/-- An ROI input whose proposed system saves nothing: identical maintenance
cost and lifespan, no heat-transfer or reflectivity terms, so annualSavings
is exactly 0 and the payback division divides by zero. -/
def roiDegenerate : ROIInput :=
  { currentSystem := { maintenanceCost := 1000, lifespan := 10 }
    proposedSystem := { initialCost := 5000, maintenanceCost := 1000, lifespan := 10 }
    facilitySize := 20000 }

/-- `round1 0 = 0`. -/
theorem round1_zero : round1 0 = 0 := by
  simp [round1]

/-- C9: `calculateWFT`, `calculateROI` and `calculateDewPoint` perform no
input validation — their defining equations hold unconditionally, for every
input — and degenerate inputs still yield results rather than errors: a
thinning percentage of 100 makes the WFT divisor (adjustedSolids) exactly 0;
an ROI input with zero annual savings makes the payback divisor exactly 0
(IEEE arithmetic in the source turns these zero-divisor divisions into
NaN/Infinity; the exact embedding returns the junk value of division by
zero); and humidity 100 makes ln(RH/100) = ln 1 = 0, with the dew point
collapsing to the air temperature. -/
theorem no_validation_functions :
    (∀ i : WFTInput, (calculateWFT i).wetFilmThickness
        = round1 (i.targetDFT / wftAdjustedSolids i * 100) ∧
      (calculateWFT i).adjustedSolids = round1 (wftAdjustedSolids i)) ∧
    (∀ i : ROIInput, (calculateROI i).paybackPeriod
        = round1 (i.proposedSystem.initialCost / roiAnnualSavings i) ∧
      (calculateROI i).annualSavings = round2 (roiAnnualSavings i)) ∧
    (∀ dft vs : ℚ, wftAdjustedSolids ⟨dft, vs, 100⟩ = 0 ∧
      (calculateWFT ⟨dft, vs, 100⟩).adjustedSolids = 0) ∧
    (roiAnnualSavings roiDegenerate = 0 ∧
      (calculateROI roiDegenerate).annualSavings = 0 ∧
      (calculateROI roiDegenerate).paybackPeriod = round1 (5000 / (0:ℚ))) ∧
    (∀ T : ℝ, T ≠ -237.7 → (calculateDewPoint ⟨T, 100⟩).dewPoint = round1R T) := by
  have hsav : roiAnnualSavings roiDegenerate = 0 := by
    norm_num [roiAnnualSavings, roiDegenerate]
  refine ⟨fun i => ⟨rfl, rfl⟩, fun i => ⟨rfl, rfl⟩, ?_, ⟨hsav, ?_, ?_⟩, ?_⟩
  · intro dft vs
    have h : wftAdjustedSolids ⟨dft, vs, 100⟩ = 0 := by
      norm_num [wftAdjustedSolids]
    refine ⟨h, ?_⟩
    have e : (calculateWFT ⟨dft, vs, 100⟩).adjustedSolids
        = round1 (wftAdjustedSolids ⟨dft, vs, 100⟩) := rfl
    rw [e, h, round1_zero]
  · have e : (calculateROI roiDegenerate).annualSavings = round2 (roiAnnualSavings roiDegenerate) := rfl
    rw [e, hsav]
    simp [round2]
  · have e : (calculateROI roiDegenerate).paybackPeriod
        = round1 (roiDegenerate.proposedSystem.initialCost / roiAnnualSavings roiDegenerate) := rfl
    rw [e, hsav]
    norm_num [roiDegenerate]
  · intro T hT
    have hBT : (237.7:ℝ) + T ≠ 0 := by
      intro h
      apply hT
      linarith
    have hα : specAlpha T 100 = (17.27 * T) / (237.7 + T) := by
      rw [specAlpha, show ((100:ℝ) / 100) = 1 by norm_num, Real.log_one, add_zero]
    have hdp : specDewPoint T 100 = T := by
      rw [specDewPoint, hα]
      have hden : (17.27:ℝ) - (17.27 * T) / (237.7 + T) = 17.27 * 237.7 / (237.7 + T) := by
        field_simp
        ring
      rw [hden, div_eq_iff (div_ne_zero (by norm_num) hBT)]
      field_simp
      ring
    have e : (calculateDewPoint ⟨T, 100⟩).dewPoint = round1R (specDewPoint T 100) := rfl
    rw [e, hdp]

/-- Witness for C9: the unconditional WFT equation at a concrete input, the
zero WFT divisor at 100% thinning, the zero ROI payback divisor, and the
humidity-100 dew point at 75°F. -/
theorem no_validation_functions_witness :
    ((calculateWFT ⟨5, 60, 0⟩).wetFilmThickness
        = round1 ((5:ℚ) / wftAdjustedSolids ⟨5, 60, 0⟩ * 100)) ∧
    wftAdjustedSolids ⟨5, 60, 100⟩ = 0 ∧
    roiAnnualSavings roiDegenerate = 0 ∧
    (calculateDewPoint ⟨(75:ℝ), 100⟩).dewPoint = round1R 75 := by
  have h := no_validation_functions
  exact ⟨(h.1 ⟨5, 60, 0⟩).1, (h.2.2.1 5 60).1, h.2.2.2.1.1, h.2.2.2.2 75 (by norm_num)⟩

end PaintCalc
